import Mathlib

/-!
Verification of the CharacterLLM response pipeline.

Shallow embedding of the code in `app/core/response/flow.py`,
`app/core/llm/openai_client.py` and `app/core/memory/vector_store.py`.
External collaborators (the OpenAI generation backend, the stdlib `json`
module, the Chroma vector store) are modelled at their call contract:
the backend outcome of each generation call is a parameter of type
`Except PyErr String`, the stdlib JSON parser is a parameter
`loads : String -> Option PyVal`, serialisation is a parameter
`dumps : PyVal -> String`, and a Chroma collection is a finite
association list from record id to stored record, whose `update`
replaces the stored document and metadata for the given id.
-/

namespace CLLM

/-- Python runtime error, identified by its rendered message. -/
abbrev PyErr := String

/-- A Python value as it appears in the metadata dictionaries of
`vector_store.py`: strings, integers, booleans, `None`, dicts and lists. -/
inductive PyVal where
  | str : String → PyVal
  | int : Int → PyVal
  | bool : Bool → PyVal
  | null : PyVal
  | dict : List (String × PyVal) → PyVal
  | list : List PyVal → PyVal

/-- `isinstance(v, dict)`. -/
def PyVal.isDict : PyVal → Bool
  | .dict _ => true
  | _ => false

/-- A Python dictionary with string keys, in insertion order. -/
abbrev PyDict := List (String × PyVal)

/-- `d.get(k)`: first binding of `k`, if any. -/
def pyGet (d : PyDict) (k : String) : Option PyVal :=
  List.lookup k d

/-- External string functions from the Python runtime: `json.dumps`
and `str()` conversion, abstracted. -/
structure PyStrFuns where
  dumps : PyVal → String
  toStr : PyVal → String

/-- A record stored in a Chroma collection: its document text and its
flat metadata dictionary. -/
structure StoredRec where
  document : String
  metadata : PyDict

/-- A Chroma collection: association list from record id to record. -/
abbrev Collection := List (String × StoredRec)

/-- Chroma `collection.update`: replace document and metadata of the
record with the given id (no-op on absent ids). -/
def updateRecord : Collection → String → StoredRec → Collection
  | [], _, _ => []
  | (k, v) :: rest, mid, r =>
      if k = mid then (k, r) :: updateRecord rest mid r
      else (k, v) :: updateRecord rest mid r

/-- `vector_store.py` lines 114-142 helper: a dict-valued field is
JSON-serialised, any other value is stored as is. -/
def serialize_if_dict (fns : PyStrFuns) (v : PyVal) : PyVal :=
  if v.isDict then .str (fns.dumps v) else v

/-- `vector_store.py` line 111 / 383: `f"{title}: {content}"`. -/
def mem_text (fns : PyStrFuns) (md : PyDict) : String :=
  fns.toStr ((pyGet md "title").getD (.str "")) ++ ": "
    ++ fns.toStr ((pyGet md "content").getD (.str ""))

/-- `ChromaMemoryStore.add_memory` metadata construction
(`vector_store.py` lines 114-142): nine keys, taxonomy kind under
`type`, six nested fields serialised when they are dicts. -/
def add_memory_metadata (fns : PyStrFuns) (character_id : String)
    (md : PyDict) : PyDict :=
  [("character_id", .str character_id),
   ("type", (pyGet md "type").getD (.str "general")),
   ("title", (pyGet md "title").getD (.str "")),
   ("time", serialize_if_dict fns ((pyGet md "time").getD (.dict []))),
   ("emotion", serialize_if_dict fns ((pyGet md "emotion").getD (.dict []))),
   ("importance", serialize_if_dict fns ((pyGet md "importance").getD (.dict []))),
   ("behavior_impact", serialize_if_dict fns ((pyGet md "behavior_impact").getD (.dict []))),
   ("trigger_system", serialize_if_dict fns ((pyGet md "trigger_system").getD (.dict []))),
   ("memory_distortion", serialize_if_dict fns ((pyGet md "memory_distortion").getD (.dict [])))]

/-- `ChromaMemoryStore.update_memory` metadata construction
(`vector_store.py` lines 386-399): exactly six keys, taxonomy kind now
under `memory_type`, and no `behavior_impact` / `trigger_system` /
`memory_distortion` entries. -/
def update_memory_metadata (fns : PyStrFuns) (character_id : String)
    (md : PyDict) : PyDict :=
  [("character_id", .str character_id),
   ("memory_type", (pyGet md "type").getD (.str "general")),
   ("time", serialize_if_dict fns ((pyGet md "time").getD (.str ""))),
   ("emotion", serialize_if_dict fns ((pyGet md "emotion").getD (.str "neutral"))),
   ("importance", (pyGet md "importance").getD (.int 5)),
   ("title", (pyGet md "title").getD (.str ""))]

/-- `ChromaMemoryStore.add_memory` (`vector_store.py` lines 91-151) on an
existing collection: append the new record under the freshly generated id. -/
def add_memory (fns : PyStrFuns) (c : Collection) (character_id memory_id : String)
    (md : PyDict) : Collection :=
  c ++ [(memory_id, ⟨mem_text fns md, add_memory_metadata fns character_id md⟩)]

/-- `ChromaMemoryStore.update_memory` (`vector_store.py` lines 362-410) on an
existing collection: replace the stored document and metadata, return `True`. -/
def update_memory (fns : PyStrFuns) (c : Collection) (character_id memory_id : String)
    (md : PyDict) : Bool × Collection :=
  (true, updateRecord c memory_id
    ⟨mem_text fns md, update_memory_metadata fns character_id md⟩)

/-- `vector_store.py` lines 281-284: the metadata fields that
`query_memories` tries to JSON-deserialise. -/
def nested_fields : List String :=
  ["time", "emotion", "importance", "behavior_impact", "trigger_system", "memory_distortion"]

/-- `vector_store.py` lines 286-294: a string field is parsed with
`json.loads`; on parse failure it is wrapped in a `raw_value` /
`parse_error` dict; non-string fields are left alone. -/
def deserializeField (loads : String → Option PyVal) (v : PyVal) : PyVal :=
  match v with
  | .str s =>
      match loads s with
      | some w => w
      | none => .dict [("raw_value", .str s), ("parse_error", .bool true)]
  | v => v

/-- `vector_store.py` lines 285-294: deserialise the six nested fields. -/
def deserializeNested (loads : String → Option PyVal) (m : PyDict) : PyDict :=
  m.map (fun kv => if kv.1 ∈ nested_fields then (kv.1, deserializeField loads kv.2) else kv)

/-- `vector_store.py` lines 277-278: if `type` is absent but
`memory_type` is present, bind `type` to the `memory_type` value. -/
def map_type_key (m : PyDict) : PyDict :=
  if (pyGet m "type").isSome then m
  else
    match pyGet m "memory_type" with
    | some v => m ++ [("type", v)]
    | none => m

/-- One candidate of the Chroma similarity query reply: id, document,
metadata, and the reported distance. -/
structure QueryHit where
  id : String
  document : String
  metadata : PyDict
  distance : ℚ

/-- Python `round(x, 3)`. -/
def round3 (x : ℚ) : ℚ :=
  ((round (1000 * x) : ℤ) : ℚ) / 1000

/-- `vector_store.py` lines 296-297 and 304/312:
`relevance = round(1.0 - distance / 2.0, 3)`. -/
def relevance_of (d : ℚ) : ℚ :=
  round3 (1 - d / 2)

/-- A memory record as returned by `query_memories`. -/
structure MemoryRec where
  id : String
  content : String
  relevance : ℚ
  meta : PyDict

/-- `vector_store.py` lines 276-313: build one returned memory from one
query hit. -/
def mk_memory_rec (loads : String → Option PyVal) (fullFields : Bool)
    (h : QueryHit) : MemoryRec :=
  let meta := deserializeNested loads (map_type_key h.metadata)
  { id := h.id
    content := h.document
    relevance := relevance_of h.distance
    meta :=
      if fullFields then meta
      else [("type", (pyGet meta "type").getD .null),
            ("title", (pyGet meta "title").getD .null)] }

/-- `ChromaMemoryStore.query_memories` (`vector_store.py` lines 227-317),
given the raw store reply for the persona and query. -/
def query_memories (loads : String → Option PyVal) (raw : List QueryHit)
    (fullFields : Bool) : List MemoryRec :=
  raw.map (mk_memory_rec loads fullFields)

/-- `ResponseFlow._retrieve_relevant_memories` (`flow.py` lines 199-225):
full-field query, then keep only records with `relevance > 0.3`. -/
def retrieve_relevant_memories (loads : String → Option PyVal)
    (raw : List QueryHit) : List MemoryRec :=
  (query_memories loads raw true).filter (fun m => (3 : ℚ) / 10 < m.relevance)

/-- A Python object as delivered by the awaits in `flow.py`: a string,
or the un-awaited coroutine object that calling an `async def` function
returns without running its body. -/
inductive PyObj where
  | str : String → PyObj
  | coroutine : PyObj

def attribute_error : PyErr :=
  "AttributeError: coroutine object has no attribute strip"

/-- What the executor call pattern of `flow.py` (lines 151-159, 193-196,
243-245, 258-260, 272-274) delivers:
`await loop.run_in_executor(None, lambda: client.generate_response(...))`.
`generate_response` is `async def` (`openai_client.py` line 61, per the
async migration recorded in that module), so the lambda returns its
coroutine object
without running the body, and the awaited future delivers that object
unchanged — never a backend string, and never an exception raised inside
the client body. -/
def executor_call_delivery : PyObj := .coroutine

/-- `OpenAIClient.generate_response` (`openai_client.py` lines 61-95) as
it behaves where it is actually awaited (for instance the call inside
`generate_structured_response`, line 112): a backend failure re-raises;
empty message content raises `ValueError`; otherwise the content is
returned. `ResponseFlow` never awaits it — see `executor_call_delivery`. -/
def empty_content_error : PyErr := "ValueError: API返回的消息内容为空"

def backend_error : PyErr := "BackendError"

def generate_response (backend : Option String) : Except PyErr String :=
  match backend with
  | none => .error backend_error
  | some content =>
      if content = "" then .error empty_content_error else .ok content

/-- Python `str.strip()`: drop whitespace from both ends. -/
def py_strip (s : String) : String :=
  ⟨((s.data.dropWhile Char.isWhitespace).reverse.dropWhile Char.isWhitespace).reverse⟩

/-- Python `str.upper()`. -/
def py_upper (s : String) : String :=
  ⟨s.data.map Char.toUpper⟩

/-- `ResponseFlow._needs_memory` (`flow.py` lines 179-197) applied to
the object its executor call delivered: line 197 evaluates
`result.strip().upper() == "YES"`. On a string this computes the
stripped, upper-cased comparison with YES; on the coroutine object that
the executor pattern actually delivers, `.strip()` raises
`AttributeError`. -/
def needs_memory : PyObj → Except PyErr Bool
  | .str r => .ok (py_upper (py_strip r) == "YES")
  | .coroutine => .error attribute_error

/-- The four event kinds emitted by `ResponseFlow.process`. -/
inductive EventType where
  | direct
  | immediate
  | supplementary
  | no_memory
deriving DecidableEq

/-- One event yielded by `ResponseFlow.process` (`flow.py` lines 48, 56,
64-69, 72); wall-clock timestamps are not modelled. The content is the
delivered Python object (in the source, the coroutine object of the
respective composer call). -/
structure Event where
  type : EventType
  content : PyObj
  memories : List MemoryRec

/-- The `NameError` raised at `flow.py` line 96 when the module-level
name `json` is unbound. -/
def name_error : PyErr := "NameError: name json is not defined"

/-- The `TypeError` raised by the supplementary call sites of `flow.py`
(lines 152-159 and 164-171): they invoke
`generate_response(system_prompt=..., user_prompt=..., temperature=...)`,
but the async signature (`openai_client.py` line 61) has no
`temperature` parameter, so the invocation inside the executor lambda
raises before any coroutine is even constructed. -/
def type_error_temperature : PyErr :=
  "TypeError: generate_response() got an unexpected keyword argument temperature"

/-- `ResponseFlow._generate_supplementary_response` (`flow.py` lines
77-174). `json_bound` records whether the module-level name `json` is
bound (it is only when `flow.py` runs as a script, line 282). With a
non-empty memory list the first loop iteration evaluates `json.dumps`
(line 96), raising `NameError` when the name is unbound, before any
generation request. Otherwise execution reaches the line 152-159 call,
which raises `TypeError` for its `temperature` keyword argument — so no
generation request to the backend is ever issued on this path either,
and the function never returns a string. The returned flag records
whether any generation request was issued. -/
def generate_supplementary_response (json_bound : Bool)
    (memories : List MemoryRec) :
    Except PyErr String × Bool :=
  if memories.isEmpty = false ∧ json_bound = false then (.error name_error, false)
  else (.error type_error_temperature, false)

/-- The per-turn inputs that still vary in the source: whether the
module-level name `json` is bound, and the outcome of the retrieval
call (`query_memories` is a plain synchronous method, so its executor
call really runs it). Every generation call site of `flow.py` awaits an
executor future that delivers the coroutine object
(`executor_call_delivery`), so those deliveries are not parameters. -/
structure FlowEnv where
  json_bound : Bool
  retrieval : Except PyErr (List MemoryRec)

/-- `ResponseFlow.process` (`flow.py` lines 37-72) as the source
executes: the list of events yielded to the caller, in order, and the
exception (if any) that ends the turn. Line 44 awaits `_needs_memory`,
whose executor call delivers the coroutine object, so `.strip()` raises
`AttributeError` before any branch is taken: every turn ends with zero
events and that exception. The remaining arms transcribe the branch
structure of lines 46-72: the direct / immediate / no-memory composers
deliver the coroutine object as event content without raising (their
lambdas pass positional arguments only), a retrieval exception would
surface at the line 59 await after the `immediate` yield, and the
supplementary arm would require `_generate_supplementary_response` to
return, which it never does. -/
def process (env : FlowEnv) : List Event × Option PyErr :=
  match needs_memory executor_call_delivery with
  | .error e => ([], some e)
  | .ok false => ([⟨.direct, executor_call_delivery, []⟩], none)
  | .ok true =>
      match env.retrieval with
      | .error e => ([⟨.immediate, executor_call_delivery, []⟩], some e)
      | .ok mems =>
          if mems.isEmpty then
            ([⟨.immediate, executor_call_delivery, []⟩,
              ⟨.no_memory, executor_call_delivery, []⟩], none)
          else
            match (generate_supplementary_response env.json_bound mems).1 with
            | .error e => ([⟨.immediate, executor_call_delivery, []⟩], some e)
            | .ok s => ([⟨.immediate, executor_call_delivery, []⟩,
                         ⟨.supplementary, .str s, mems⟩], none)

/-- The observable actions of the recollection path of
`ResponseFlow.process`, for the ordering contract. -/
inductive FlowAction where
  | classify
  | reflex_start
  | reflex_finish
  | retrieval_start
  | retrieval_finish
  | emit : EventType → FlowAction
deriving DecidableEq

/-- The action order of `flow.py` lines 44-72 on the recollection path:
line 44 classifies; line 52 starts and awaits the reflex composer to
completion; line 53 then creates the retrieval task; line 56 yields the
`immediate` event; line 59 awaits the retrieval task; lines 60-72 yield
the second event (`supplementary` or `no_memory`). -/
def memory_path_trace (second : EventType) : List FlowAction :=
  [.classify, .reflex_start, .reflex_finish, .retrieval_start,
   .emit .immediate, .retrieval_finish, .emit second]

/-- Index of the first occurrence of a needle in a haystack of chars. -/
def findSub (needle : List Char) : List Char → Option Nat
  | [] => if needle.isPrefixOf ([] : List Char) then some 0 else none
  | c :: rest =>
      if needle.isPrefixOf (c :: rest) then some 0
      else (findSub needle rest).map (· + 1)

def fence_open : List Char := "```json\n".data

def fence_close : List Char := "\n```".data

/-- `openai_client.py` line 126: the regex
search for a json-tagged fenced block, DOTALL, non-greedy — the first
occurrence of the opening tag, with the content running to the first
closing tag after it. -/
def extract_fenced (text : String) : Option String :=
  match findSub fence_open text.data with
  | none => none
  | some i =>
      let rest := text.data.drop (i + fence_open.length)
      match findSub fence_close rest with
      | none => none
      | some j => some ⟨rest.take j⟩

/-- `openai_client.py` line 131: the greedy brace-span regex — from the
first opening brace to the last closing brace, when the latter comes
after the former. -/
def brace_span (text : String) : Option String :=
  let cs := text.data
  match findSub ['{'] cs with
  | none => none
  | some i =>
      match findSub ['}'] cs.reverse with
      | none => none
      | some jr =>
          let j := cs.length - 1 - jr
          if i < j then some ⟨(cs.drop i).take (j - i + 1)⟩ else none

/-- The fallback record of `openai_client.py` lines 137 and 140:
`{"text": response_text, "error": ...}`. -/
def json_error_record (raw msg : String) : PyVal :=
  .dict [("text", .str raw), ("error", .str msg)]

/-- `OpenAIClient.generate_structured_response` (`openai_client.py`
lines 98-140) given the backend response text: direct parse; on failure
parse the fenced block if one exists (a parse failure there is caught by
the outer handler and yields the error record without trying the brace
span); otherwise parse the brace span; otherwise return the error
record. `loads` abstracts `json.loads`, returning `none` where the
Python function raises `JSONDecodeError`; the `JSONDecodeError` marker
stands for the rendered message `str(e)` of line 140. -/
def generate_structured_response (loads : String → Option PyVal)
    (response_text : String) : PyVal :=
  match loads response_text with
  | some v => v
  | none =>
      match extract_fenced response_text with
      | some inner =>
          match loads inner with
          | some v => v
          | none => json_error_record response_text "JSONDecodeError"
      | none =>
          match brace_span response_text with
          | some span =>
              match loads span with
              | some v => v
              | none => json_error_record response_text "JSONDecodeError"
          | none => json_error_record response_text "Failed to parse JSON"

/-! Concrete inputs used by the witnesses and counterexamples. -/

/-- A JSON parser outcome that fails on every input. -/
def no_loads : String → Option PyVal := fun _ => none

/-- A memory record as the flow would receive it from retrieval. -/
def sample_mem : MemoryRec :=
  ⟨"m1", "full memory text", 1 / 2, [("type", .str "hobby")]⟩

/-- Library-mode turn inputs: `json` unbound, retrieval returning one
record. -/
def lib_env : FlowEnv := ⟨false, .ok [sample_mem]⟩

/-- Script-mode turn inputs: `json` bound, same retrieval result. -/
def script_env : FlowEnv := ⟨true, .ok [sample_mem]⟩

/-- Turn inputs whose retrieval returns no records. -/
def empty_env : FlowEnv := ⟨false, .ok []⟩

/-- A query hit at squared-L2 distance 4 (opposite unit vectors). -/
def far_hit : QueryHit := ⟨"m1", "doc", [], 4⟩

/-- A query hit at distance 0. -/
def near_hit : QueryHit := ⟨"m2", "doc2", [], 0⟩

/-- A parser that recognises exactly the text of an empty JSON object. -/
def fenced_loads : String → Option PyVal :=
  fun s => if s = "{}" then some (.dict []) else none

/-- A backend reply wrapping JSON in a tagged fenced block. -/
def fenced_resp : String := "reply:\n```json\n{}\n```\ndone"

/-- A backend reply that no repair step can parse. -/
def gibberish_resp : String := "total gibberish"

/-- Concrete serialisation functions for the store witnesses. -/
def w_fns : PyStrFuns := ⟨fun _ => "serialized", fun _ => "text"⟩

/-- A memory payload carrying the rich creation-time fields. -/
def w_md : PyDict :=
  [("type", .str "hobby"), ("title", .str "t"), ("content", .str "c"),
   ("behavior_impact", .dict [("habit_formed", .str "h")])]

/-- The payload later passed to `update_memory`. -/
def w_md2 : PyDict := [("type", .str "hobby"), ("title", .str "t2")]

/-! Helper lemmas. -/

theorem round3_mono {x y : ℚ} (h : x ≤ y) : round3 x ≤ round3 y := by
  have h1 : round (1000 * x) ≤ round (1000 * y) := by
    rw [round_eq, round_eq]
    exact Int.floor_le_floor (by linarith)
  have h2 : ((round (1000 * x) : ℤ) : ℚ) ≤ ((round (1000 * y) : ℤ) : ℚ) := by
    exact_mod_cast h1
  unfold round3
  linarith

theorem round3_one : round3 (1 : ℚ) = 1 := by
  unfold round3
  rw [mul_one, show ((1000 : ℚ)) = ((1000 : ℕ) : ℚ) by norm_num, round_natCast]
  norm_num

theorem round3_zero : round3 (0 : ℚ) = 0 := by
  unfold round3
  rw [mul_zero, round_zero]
  norm_num

theorem round3_neg_one : round3 (-1 : ℚ) = -1 := by
  unfold round3
  rw [show (1000 : ℚ) * (-1) = ((-1000 : ℤ) : ℚ) by norm_num, round_intCast]
  norm_num

theorem round3_le_one {x : ℚ} (h : x ≤ 1) : round3 x ≤ 1 :=
  (round3_mono h).trans (le_of_eq round3_one)

theorem round3_nonneg {x : ℚ} (h : 0 ≤ x) : 0 ≤ round3 x :=
  (le_of_eq round3_zero.symm).trans (round3_mono h)

theorem relevance_of_antitone {d e : ℚ} (h : d ≤ e) :
    relevance_of e ≤ relevance_of d := by
  unfold relevance_of
  exact round3_mono (by linarith)

theorem relevance_of_le_one {d : ℚ} (h : 0 ≤ d) : relevance_of d ≤ 1 := by
  unfold relevance_of
  exact round3_le_one (by linarith)

theorem relevance_of_nonneg {d : ℚ} (h : d ≤ 2) : 0 ≤ relevance_of d := by
  unfold relevance_of
  exact round3_nonneg (by linarith)

theorem relevance_mk (loads : String → Option PyVal) (ff : Bool) (h : QueryHit) :
    (mk_memory_rec loads ff h).relevance = relevance_of h.distance := rfl

theorem lookup_append_right {β : Type} {c : List (String × β)} {k : String} {b : β}
    (h : List.lookup k c = none) :
    List.lookup k (c ++ [(k, b)]) = some b := by
  induction c with
  | nil => simp [List.lookup]
  | cons hd tl ih =>
      obtain ⟨k1, v1⟩ := hd
      rw [List.cons_append]
      by_cases hk : k = k1
      · subst hk
        simp [List.lookup] at h
      · have hb : (k == k1) = false := beq_eq_false_iff_ne.mpr hk
        simp only [List.lookup, hb] at h ⊢
        exact ih h

theorem lookup_updateRecord {c : Collection} {mid : String} {r : StoredRec}
    (h : (List.lookup mid c).isSome) :
    List.lookup mid (updateRecord c mid r) = some r := by
  induction c with
  | nil => simp [List.lookup] at h
  | cons hd tl ih =>
      obtain ⟨k, v⟩ := hd
      by_cases hk : k = mid
      · subst hk
        simp [updateRecord, List.lookup]
      · rw [updateRecord, if_neg hk]
        have hb : (mid == k) = false := beq_eq_false_iff_ne.mpr (fun he => hk he.symm)
        simp only [List.lookup, hb] at h ⊢
        exact ih h

theorem pyGet_deserializeNested (loads : String → Option PyVal) (m : PyDict)
    (k : String) (hk : ¬ k ∈ nested_fields) :
    pyGet (deserializeNested loads m) k = pyGet m k := by
  induction m with
  | nil => rfl
  | cons kv tl ih =>
      obtain ⟨k1, v1⟩ := kv
      unfold deserializeNested at ih ⊢
      rw [List.map_cons]
      by_cases h1 : k1 ∈ nested_fields
      · have hb : (k == k1) = false :=
          beq_eq_false_iff_ne.mpr (fun he => hk (he ▸ h1))
        simp only [h1, if_true]
        unfold pyGet at ih ⊢
        simp only [List.lookup, hb]
        exact ih
      · simp only [h1, if_false]
        unfold pyGet at ih ⊢
        by_cases hkk : k = k1
        · subst hkk
          simp [List.lookup]
        · have hb : (k == k1) = false := beq_eq_false_iff_ne.mpr hkk
          simp only [List.lookup, hb]
          exact ih

/-! Claim theorems. -/

/-- C6: every record returned by the retrieval pipeline
(`_retrieve_relevant_memories` over `query_memories`) has relevance
strictly above the 0.3 floor, the list has at most `n_results` entries,
and it is sorted in descending relevance, inheriting the ascending
distance ranking of the store (stated as the two hypotheses, which are
the Chroma query contract) through the monotone transform and filter. -/
theorem retrieval_floor_cap_order (loads : String → Option PyVal)
    (raw : List QueryHit) (n : ℕ)
    (hcap : raw.length ≤ n)
    (hord : raw.Pairwise (fun a b => a.distance ≤ b.distance)) :
    (∀ m ∈ retrieve_relevant_memories loads raw, (3 : ℚ) / 10 < m.relevance) ∧
    (retrieve_relevant_memories loads raw).length ≤ n ∧
    (retrieve_relevant_memories loads raw).Pairwise
      (fun a b => b.relevance ≤ a.relevance) := by
  refine ⟨?_, ?_, ?_⟩
  · intro m hm
    rw [retrieve_relevant_memories, List.mem_filter] at hm
    exact of_decide_eq_true hm.2
  · calc (retrieve_relevant_memories loads raw).length
        ≤ (query_memories loads raw true).length := List.length_filter_le _ _
      _ = raw.length := List.length_map _ _
      _ ≤ n := hcap
  · apply List.Pairwise.filter
    exact hord.map (mk_memory_rec loads true)
      (fun a b hab => by rw [relevance_mk, relevance_mk]; exact relevance_of_antitone hab)

/-- C6 witness: the pipeline evaluated on a concrete one-hit store reply. -/
theorem retrieval_floor_cap_order_witness :
    (∀ m ∈ retrieve_relevant_memories no_loads [near_hit], (3 : ℚ) / 10 < m.relevance) ∧
    (retrieve_relevant_memories no_loads [near_hit]).length ≤ 3 ∧
    (retrieve_relevant_memories no_loads [near_hit]).Pairwise
      (fun a b => b.relevance ≤ a.relevance) :=
  retrieval_floor_cap_order no_loads [near_hit] 3 (by decide)
    (by simp [List.pairwise_singleton])

/-- C7 counterexample: at the store-reported distance 4 (attainable for
opposite unit embeddings under the default squared-L2 metric) the
computed relevance is `round(1 - 4/2, 3) = -1`, outside `[0, 1]`, so the
claim that every returned relevance lies in `[0, 1]` is false. -/
theorem relevance_range_counterexample :
    ¬ ∀ m ∈ query_memories no_loads [far_hit] true,
        0 ≤ m.relevance ∧ m.relevance ≤ 1 := by
  intro hall
  have hmem : mk_memory_rec no_loads true far_hit ∈ query_memories no_loads [far_hit] true := by
    simp [query_memories]
  have hrel : (mk_memory_rec no_loads true far_hit).relevance = -1 := by
    rw [relevance_mk]
    show relevance_of 4 = -1
    unfold relevance_of
    rw [show (1 - (4 : ℚ) / 2) = (-1 : ℚ) by norm_num]
    exact round3_neg_one
  have := (hall _ hmem).1
  rw [hrel] at this
  norm_num at this

/-- C7 (amended): every candidate returned by `query_memories` carries
`relevance = round(1 - distance/2, 3)`; that value is at most 1 whenever
the reported distance is nonnegative, and it lies in `[0, 1]` exactly
under the additional condition `distance ≤ 2` — the code does not clamp,
so larger distances produce negative relevance. -/
theorem relevance_formula_and_range (loads : String → Option PyVal)
    (ff : Bool) (raw : List QueryHit) :
    (query_memories loads raw ff).map (fun m => m.relevance)
        = raw.map (fun h => round3 (1 - h.distance / 2)) ∧
    ∀ m ∈ query_memories loads raw ff, ∃ h ∈ raw,
      m.relevance = round3 (1 - h.distance / 2) ∧
      (0 ≤ h.distance → m.relevance ≤ 1) ∧
      (0 ≤ h.distance → h.distance ≤ 2 → 0 ≤ m.relevance ∧ m.relevance ≤ 1) := by
  constructor
  · unfold query_memories
    rw [List.map_map]
    rfl
  · intro m hm
    rw [query_memories, List.mem_map] at hm
    obtain ⟨h, hh, rfl⟩ := hm
    refine ⟨h, hh, rfl, fun h0 => ?_, fun h0 h2 => ⟨?_, ?_⟩⟩
    · rw [relevance_mk]; exact relevance_of_le_one h0
    · rw [relevance_mk]; exact relevance_of_nonneg h2
    · rw [relevance_mk]; exact relevance_of_le_one h0

/-- C7 witness: the amended statement evaluated on a concrete hit at
distance 0, whose relevance is 1. -/
theorem relevance_formula_and_range_witness :
    ((query_memories no_loads [near_hit] true).map (fun m => m.relevance)
        = [near_hit].map (fun h => round3 (1 - h.distance / 2))) ∧
    ∃ h ∈ [near_hit],
      (mk_memory_rec no_loads true near_hit).relevance = round3 (1 - h.distance / 2) ∧
      (0 ≤ h.distance → (mk_memory_rec no_loads true near_hit).relevance ≤ 1) ∧
      (0 ≤ h.distance → h.distance ≤ 2 →
        0 ≤ (mk_memory_rec no_loads true near_hit).relevance ∧
        (mk_memory_rec no_loads true near_hit).relevance ≤ 1) :=
  ⟨(relevance_formula_and_range no_loads true [near_hit]).1,
   (relevance_formula_and_range no_loads true [near_hit]).2
     (mk_memory_rec no_loads true near_hit) (by simp [query_memories])⟩

/-- C2 counterexample: in the recollection-path action order of
`flow.py` the retrieval task is created (line 53) only after the reflex
composer call has already completed (the `await` on line 52), so the two
calls are not started concurrently: the retrieval start does not precede
the reflex completion. -/
theorem concurrent_start_counterexample :
    ¬ ((memory_path_trace .supplementary).indexOf FlowAction.retrieval_start <
       (memory_path_trace .supplementary).indexOf FlowAction.reflex_finish) := by
  decide

/-- C2 (amended): the reflex call completes strictly before the
retrieval task is started; the retrieval task is started strictly before
the `immediate` event is emitted and is awaited only strictly after that
emission, so retrieval does run in the background while the `immediate`
event is delivered — but the two calls are sequential, not simultaneous. -/
theorem sequential_reflex_then_retrieval (second : EventType) :
    ((memory_path_trace second).indexOf FlowAction.reflex_finish <
      (memory_path_trace second).indexOf FlowAction.retrieval_start) ∧
    ((memory_path_trace second).indexOf FlowAction.retrieval_start <
      (memory_path_trace second).indexOf (FlowAction.emit .immediate)) ∧
    ((memory_path_trace second).indexOf (FlowAction.emit .immediate) <
      (memory_path_trace second).indexOf FlowAction.retrieval_finish) := by
  cases second <;> exact ⟨by decide, by decide, by decide⟩

/-- C2 witness: the amended ordering at the concrete supplementary path. -/
theorem sequential_reflex_then_retrieval_witness :
    ((memory_path_trace .supplementary).indexOf FlowAction.reflex_finish <
      (memory_path_trace .supplementary).indexOf FlowAction.retrieval_start) ∧
    ((memory_path_trace .supplementary).indexOf FlowAction.retrieval_start <
      (memory_path_trace .supplementary).indexOf (FlowAction.emit .immediate)) ∧
    ((memory_path_trace .supplementary).indexOf (FlowAction.emit .immediate) <
      (memory_path_trace .supplementary).indexOf FlowAction.retrieval_finish) :=
  sequential_reflex_then_retrieval .supplementary

/-- C1: the claimed one-or-two event discipline is the clear intent of
the `flow.py` branch structure and of its own `__main__` test, but no
turn of the source can exhibit it: every generation call site feeds the
async client through a synchronous executor lambda, so `_needs_memory`
receives a coroutine object and raises `AttributeError` at the
`.strip()` of line 197 before any branch is taken. Evaluated at the
claimed inputs — a turn with a non-empty retrieval result, in library
mode and in script mode alike — the turn ends with zero emitted events
and that exception, never with one `direct` event and never with an
`immediate`-then-second pair. -/
theorem process_always_aborts_at_classification :
    process lib_env = ([], some attribute_error) ∧
    process script_env = ([], some attribute_error) ∧
    (process lib_env).1.length = 0 ∧
    (process empty_env).1.length = 0 := by
  exact ⟨rfl, rfl, rfl, rfl⟩

/-- C3 counterexample: at a concrete recollection-bound turn the source
emits no `immediate` event at all and the turn does not complete with an
emitted event: it aborts with `AttributeError` in `_needs_memory`
(`flow.py` line 197), before the reflex composer call of line 52 is even
reached — and no degraded persona-voiced acknowledgment exists anywhere
in `flow.py` (line 52 sits in no try/except). -/
theorem reflex_failure_aborts_counterexample :
    process lib_env = ([], some attribute_error) ∧
    ¬ ∃ ev ∈ (process lib_env).1, ev.type = EventType.immediate := by
  refine ⟨rfl, ?_⟩
  rintro ⟨ev, hev, -⟩
  rw [show process lib_env = ([], some attribute_error) from rfl] at hev
  simp at hev

/-- C3 (amended): the orchestrator has no handler and no fallback text
for a failing reflex composer call; in the source a reflex failure
cannot even occur, because every turn aborts earlier — `_needs_memory`
raises `AttributeError` on the coroutine object its executor call
delivers — so every turn ends with zero emitted events and the turn
never completes with an `immediate` event. -/
theorem reflex_call_never_reached (env : FlowEnv) :
    process env = ([], some attribute_error) ∧ (process env).1 = [] :=
  ⟨rfl, rfl⟩

/-- C3 witness: the amended statement at the concrete script-mode turn. -/
theorem reflex_call_never_reached_witness :
    process script_env = ([], some attribute_error) ∧
    (process script_env).1 = [] :=
  reflex_call_never_reached script_env

/-- C5 counterexample: no classifier outcome is ever inspected in the
source — `_needs_memory` receives the coroutine object of the async
client (its executor lambda never runs the client body, so not even the
empty-output `ValueError` can arise there) and `result.strip()` raises
`AttributeError` on every call. At a concrete turn, `process` aborts
with zero events and no `direct` event: nothing degrades to
"recollection not needed". -/
theorem classifier_failure_counterexample :
    needs_memory executor_call_delivery = .error attribute_error ∧
    process empty_env = ([], some attribute_error) ∧
    ¬ ∃ ev ∈ (process empty_env).1, ev.type = EventType.direct := by
  refine ⟨rfl, rfl, ?_⟩
  rintro ⟨ev, hev, -⟩
  rw [show process empty_env = ([], some attribute_error) from rfl] at hev
  simp at hev

/-- C5 (amended): every `_needs_memory` call of the source raises
`AttributeError` — the executor pattern delivers the coroutine object of
the async `generate_response`, and a coroutine has no `.strip` — so the
function never returns a boolean, no failure is degraded to
"recollection not needed", and every turn aborts with zero events
instead of proceeding on the `direct` path. The claimed YES condition is
the semantics of the line 197 expression on a string argument only,
which the source never delivers. -/
theorem classifier_always_raises (s : String) (env : FlowEnv) :
    (needs_memory executor_call_delivery = .error attribute_error) ∧
    (needs_memory (.str s) = .ok true ↔ py_upper (py_strip s) = "YES") ∧
    process env = ([], some attribute_error) := by
  refine ⟨rfl, ?_, rfl⟩
  unfold needs_memory
  simp

/-- C5 witness: the amended statement at concrete inputs. -/
theorem classifier_always_raises_witness :
    (needs_memory (.str "NO") = .ok true ↔ py_upper (py_strip "NO") = "YES") ∧
    process lib_env = ([], some attribute_error) :=
  ⟨(classifier_always_raises "NO" lib_env).2.1,
   (classifier_always_raises "NO" lib_env).2.2⟩

/-- C4: with the module imported as a library the module-level name
`json` is unbound (`flow.py` imports it only under the `__main__` guard,
line 282), so every `_generate_supplementary_response` call on a
non-empty memory list raises `NameError` at the `json.dumps` of line 96
before any generation request is issued, and consequently no turn of
`process` ever yields a `supplementary` event. -/
theorem json_unbound_no_supplementary (mems : List MemoryRec)
    (hne : mems ≠ []) :
    generate_supplementary_response false mems = (.error name_error, false) ∧
    ∀ env : FlowEnv, env.json_bound = false → env.retrieval = .ok mems →
      ∀ ev ∈ (process env).1, ev.type ≠ EventType.supplementary := by
  have hne2 : mems.isEmpty = false := by
    cases mems with
    | nil => exact absurd rfl hne
    | cons a l => rfl
  constructor
  · unfold generate_supplementary_response
    rw [if_pos ⟨hne2, rfl⟩]
  · intro env hjb hrt ev hev
    rw [show process env = ([], some attribute_error) from rfl] at hev
    simp at hev

/-- C4 witness: the statement at a concrete one-memory list and a
concrete library-imported turn. -/
theorem json_unbound_no_supplementary_witness :
    ([sample_mem] ≠ ([] : List MemoryRec)) ∧
    generate_supplementary_response false [sample_mem]
        = (.error name_error, false) ∧
    ∀ ev ∈ (process lib_env).1, ev.type ≠ EventType.supplementary := by
  have h := json_unbound_no_supplementary [sample_mem] (List.cons_ne_nil sample_mem [])
  exact ⟨List.cons_ne_nil sample_mem [], h.1, h.2 lib_env rfl rfl⟩

/-- C8: whenever the backend response text is not directly parseable,
and neither the fenced-block extraction nor the brace-span extraction
yields parseable JSON, `generate_structured_response` returns the
`{"text": raw, "error": marker}` record instead of raising (the model
is a total function, and this case lands in the error record). -/
theorem structured_response_total_failure (loads : String → Option PyVal)
    (resp : String)
    (h1 : loads resp = none)
    (h2 : (extract_fenced resp).bind loads = none)
    (h3 : (brace_span resp).bind loads = none) :
    ∃ msg, generate_structured_response loads resp = json_error_record resp msg := by
  unfold generate_structured_response
  rw [h1]
  rcases hf : extract_fenced resp with _ | inner
  · rcases hb : brace_span resp with _ | span
    · exact ⟨"Failed to parse JSON", rfl⟩
    · rw [hb] at h3
      simp only [Option.some_bind] at h3
      refine ⟨"JSONDecodeError", ?_⟩
      show (match loads span with
            | some w => w
            | none => json_error_record resp "JSONDecodeError") = _
      rw [h3]
  · rw [hf] at h2
    simp only [Option.some_bind] at h2
    refine ⟨"JSONDecodeError", ?_⟩
    show (match loads inner with
          | some w => w
          | none => json_error_record resp "JSONDecodeError") = _
    rw [h2]

/-- C8 witness: the statement on concrete unparseable gibberish. -/
theorem structured_response_total_failure_witness :
    ∃ msg, generate_structured_response no_loads gibberish_resp
        = json_error_record gibberish_resp msg :=
  structured_response_total_failure no_loads gibberish_resp rfl rfl rfl

/-- C9: for any backend response containing a json-tagged fenced block
whose content parses, `generate_structured_response` returns exactly the
object obtained by parsing that inner block. The hypothesis on `loads`
records a property of the real `json.loads`: a text containing a fenced
block holds a raw newline inside what would have to be a string literal,
so the full text itself never parses as JSON. -/
theorem structured_response_fenced (loads : String → Option PyVal)
    (hreal : ∀ s t, extract_fenced s = some t → loads s = none)
    (resp inner : String) (v : PyVal)
    (hf : extract_fenced resp = some inner) (hv : loads inner = some v) :
    generate_structured_response loads resp = v := by
  unfold generate_structured_response
  rw [hreal resp inner hf, hf]
  show (match loads inner with
        | some w => w
        | none => json_error_record resp "JSONDecodeError") = v
  rw [hv]

/-- C9 witness: a concrete fenced reply parsed by a concrete parser. -/
theorem structured_response_fenced_witness :
    generate_structured_response fenced_loads fenced_resp = .dict [] := by
  apply structured_response_fenced fenced_loads ?_ fenced_resp "{}" (.dict []) ?_ ?_
  · intro s t h
    by_cases hs : s = "{}"
    · subst hs
      rw [show extract_fenced "{}" = (none : Option String) from rfl] at h
      exact Option.noConfusion h
    · simp [fenced_loads, hs]
  · rfl
  · simp [fenced_loads]

/-- C10: `add_memory` stores the taxonomy kind under `type` together
with `behavior_impact`, `trigger_system` and `memory_distortion`; a
subsequent successful `update_memory` on the same record replaces the
stored metadata with exactly the six keys `character_id`, `memory_type`,
`time`, `emotion`, `importance`, `title` — the three rich fields are
gone, the kind now lives under `memory_type` and not `type` — and a
later `query_memories` on the stored record maps `memory_type` back to
a `type` binding. -/
theorem update_memory_drops_fields (fns : PyStrFuns) (c : Collection)
    (cid mid : String) (md md2 : PyDict)
    (hfresh : List.lookup mid c = none) :
    (pyGet (add_memory_metadata fns cid md) "type").isSome ∧
    (pyGet (add_memory_metadata fns cid md) "behavior_impact").isSome ∧
    (pyGet (add_memory_metadata fns cid md) "trigger_system").isSome ∧
    (pyGet (add_memory_metadata fns cid md) "memory_distortion").isSome ∧
    (update_memory fns (add_memory fns c cid mid md) cid mid md2).1 = true ∧
    ∃ rec, List.lookup mid
        (update_memory fns (add_memory fns c cid mid md) cid mid md2).2 = some rec ∧
      rec.metadata.map Prod.fst
        = ["character_id", "memory_type", "time", "emotion", "importance", "title"] ∧
      pyGet rec.metadata "type" = none ∧
      pyGet rec.metadata "behavior_impact" = none ∧
      pyGet rec.metadata "trigger_system" = none ∧
      pyGet rec.metadata "memory_distortion" = none ∧
      pyGet rec.metadata "memory_type"
        = some ((pyGet md2 "type").getD (.str "general")) ∧
      ∀ loads, ∃ m ∈ query_memories loads
          [⟨mid, rec.document, rec.metadata, 0⟩] true,
        pyGet m.meta "type" = some ((pyGet md2 "type").getD (.str "general")) := by
  have hadd : List.lookup mid (add_memory fns c cid mid md)
      = some ⟨mem_text fns md, add_memory_metadata fns cid md⟩ :=
    lookup_append_right hfresh
  have hupd : List.lookup mid
      (update_memory fns (add_memory fns c cid mid md) cid mid md2).2
      = some ⟨mem_text fns md2, update_memory_metadata fns cid md2⟩ := by
    apply lookup_updateRecord
    rw [hadd]
    rfl
  refine ⟨rfl, rfl, rfl, rfl, rfl,
    ⟨mem_text fns md2, update_memory_metadata fns cid md2⟩, hupd,
    rfl, rfl, rfl, rfl, rfl, rfl, ?_⟩
  intro loads
  refine ⟨mk_memory_rec loads true
      ⟨mid, mem_text fns md2, update_memory_metadata fns cid md2, 0⟩,
    by simp [query_memories], ?_⟩
  show pyGet (deserializeNested loads
      (map_type_key (update_memory_metadata fns cid md2))) "type" = _
  have h1 : map_type_key (update_memory_metadata fns cid md2)
      = update_memory_metadata fns cid md2
        ++ [("type", (pyGet md2 "type").getD (.str "general"))] := rfl
  rw [h1, pyGet_deserializeNested loads _ "type" (by decide)]
  exact lookup_append_right rfl

/-- C10 witness: the statement evaluated on concrete creation and update
payloads (the creation payload carries a `behavior_impact` dict, the
update payload only kind and title). -/
theorem update_memory_drops_fields_witness :
    (pyGet (add_memory_metadata w_fns "c1" w_md) "type").isSome ∧
    (pyGet (add_memory_metadata w_fns "c1" w_md) "behavior_impact").isSome ∧
    (pyGet (add_memory_metadata w_fns "c1" w_md) "trigger_system").isSome ∧
    (pyGet (add_memory_metadata w_fns "c1" w_md) "memory_distortion").isSome ∧
    (update_memory w_fns (add_memory w_fns [] "c1" "m1" w_md) "c1" "m1" w_md2).1 = true ∧
    ∃ rec, List.lookup "m1"
        (update_memory w_fns (add_memory w_fns [] "c1" "m1" w_md) "c1" "m1" w_md2).2
          = some rec ∧
      rec.metadata.map Prod.fst
        = ["character_id", "memory_type", "time", "emotion", "importance", "title"] ∧
      pyGet rec.metadata "type" = none ∧
      pyGet rec.metadata "behavior_impact" = none ∧
      pyGet rec.metadata "trigger_system" = none ∧
      pyGet rec.metadata "memory_distortion" = none ∧
      pyGet rec.metadata "memory_type"
        = some ((pyGet w_md2 "type").getD (.str "general")) ∧
      ∀ loads, ∃ m ∈ query_memories loads
          [⟨"m1", rec.document, rec.metadata, 0⟩] true,
        pyGet m.meta "type" = some ((pyGet w_md2 "type").getD (.str "general")) :=
  update_memory_drops_fields w_fns [] "c1" "m1" w_md w_md2 rfl

end CLLM
